import Mathlib

/-!
Verification development for the digibook Digimonitor scraper.

Shallow embedding of the Python sources under
`Digimonitor/app/services/` (the URL classifier, the field extractors,
the per-platform scrape loops, and the persistence helpers), together
with theorems settling the specification claims about them.

Conventions used throughout:
* Python strings that the code only stores and equality-tests (chat
  usernames and comment texts) are modelled by a type parameter with
  decidable equality; everything the code inspects structurally stays
  `String` / `List Char`.
* Python exceptions are modelled with `Except`: a value `.error e`
  means the modelled fragment raises `e` to its caller.
* File contents are modelled as the list of data rows they hold;
  `none` stands for a file that does not exist yet.
-/

/-! ### URL platform classifier (`app/services/utils/detected.py`)

`DetectPlatform` applies three `re.match` (prefix-anchored) regexes in
order.  The regexes are embedded as explicit characterwise matchers on
`List Char`; `\w` is modelled over ASCII as letter, digit or
underscore.  `re.match` only requires the pattern to match a prefix of
the URL, so each matcher checks a literal prefix followed by one
admissible character (the `+` classes need at least one member and the
rest of the string is unconstrained).
-/

/-- Model of the regex class `\w`: letters, digits or underscore. -/
def isWordChar (c : Char) : Bool :=
  c.isAlphanum || c == '_'

/-- Model of the regex class `[\w-]`. -/
def isWordDash (c : Char) : Bool :=
  isWordChar c || c == '-'

/-- Model of the regex class `[\w.]`. -/
def isWordDot (c : Char) : Bool :=
  isWordChar c || c == '.'

/-- Matches the scheme part `https?://` of the three patterns and
returns the remaining characters.  The optional `s` is deterministic
because a successful `s` branch and a successful plain branch disagree
on the character after `http`. -/
def afterScheme : List Char → Option (List Char)
  | 'h' :: 't' :: 't' :: 'p' :: 's' :: ':' :: '/' :: '/' :: rest => some rest
  | 'h' :: 't' :: 't' :: 'p' :: ':' :: '/' :: '/' :: rest => some rest
  | _ => none

/-- Matches the optional `(www\.)?` group.  The hosts that follow in
all three patterns start with `y` or `t`, never with `w`, so the
optional group is deterministic. -/
def stripWww : List Char → List Char
  | 'w' :: 'w' :: 'w' :: '.' :: rest => rest
  | s => s

/-- Drops the literal pattern `lit` from the front of `s`, or fails. -/
def afterLit : List Char → List Char → Option (List Char)
  | [], s => some s
  | _ :: _, [] => none
  | c :: cs, d :: ds => if c = d then afterLit cs ds else none

/-- True when the list is nonempty and its head satisfies `p`; models
a final `X+` regex atom under prefix matching (one member of the class
suffices, the rest of the URL is unconstrained). -/
def headSat (p : Char → Bool) : List Char → Bool
  | [] => false
  | c :: _ => p c

/-- Literal prefix followed by at least one character of a class. -/
def litMatch (lit : List Char) (p : Char → Bool) (s : List Char) : Bool :=
  match afterLit lit s with
  | some r => headSat p r
  | none => false

/-- Characters of the literal `youtube.com/watch?v=`. -/
def ytWatchLit : List Char :=
  ['y', 'o', 'u', 't', 'u', 'b', 'e', '.', 'c', 'o', 'm', '/', 'w', 'a', 't', 'c', 'h', '?', 'v', '=']

/-- Characters of the literal `youtu.be/`. -/
def ytShortLit : List Char :=
  ['y', 'o', 'u', 't', 'u', '.', 'b', 'e', '/']

/-- Characters of the literal `twitch.tv/`. -/
def twitchLit : List Char :=
  ['t', 'w', 'i', 't', 'c', 'h', '.', 't', 'v', '/']

/-- Characters of the literal `tiktok.com/@`. -/
def tiktokLit : List Char :=
  ['t', 'i', 'k', 't', 'o', 'k', '.', 'c', 'o', 'm', '/', '@']

/-- Characters of the literal `/video/`. -/
def videoLit : List Char :=
  ['/', 'v', 'i', 'd', 'e', 'o', '/']

/-- Scheme plus optional `www.` common to all three patterns. -/
def hostPart (url : String) : Option (List Char) :=
  (afterScheme url.data).map stripWww

/-- Embedding of `youtube_pattern.match(url)` from `detected.py`:
`https?://(www\.)?(youtube\.com/watch\?v=|youtu\.be/)[\w-]+`. -/
def matchYoutube (url : String) : Bool :=
  match hostPart url with
  | some h => litMatch ytWatchLit isWordDash h || litMatch ytShortLit isWordDash h
  | none => false

/-- Embedding of `twitch_pattern.match(url)` from `detected.py`:
`https?://(www\.)?twitch\.tv/[\w-]+`. -/
def matchTwitch (url : String) : Bool :=
  match hostPart url with
  | some h => litMatch twitchLit isWordDash h
  | none => false

/-- Tail of the tiktok pattern after `tiktok.com/@`: the user part
`[\w.]+` (which cannot contain `/`, so backtracking always ends the
group at the maximal run) followed by `/video/` and at least one
digit. -/
def tiktokTail (rest : List Char) : Bool :=
  let user := rest.takeWhile isWordDot
  if user.isEmpty then false
  else litMatch videoLit Char.isDigit (rest.drop user.length)

/-- Embedding of `tiktok_pattern.match(url)` from `detected.py`:
`https?://(www\.)?tiktok\.com/@[\w.]+/video/\d+`. -/
def matchTiktok (url : String) : Bool :=
  match hostPart url with
  | some h =>
    match afterLit tiktokLit h with
    | some rest => tiktokTail rest
    | none => false
  | none => false

/-- Embedding of `DetectPlatform` (`detected.py`, lines 20-46): the
three patterns are tried in order and the first match decides the
returned tag. -/
def DetectPlatform (url : String) : String :=
  if matchYoutube url then "youtube"
  else if matchTwitch url then "twitch"
  else if matchTiktok url then "tiktok"
  else "INVALIDURL"

/-! ### CSV sink (`twitch.py`, `_create_csv`, lines 251-275)

The file is modelled by its list of data rows; `none` is a file that
does not exist yet.  On an existing file the code loads the rows,
concatenates the new rows after them and rewrites the file. -/

/-- Embedding of `_create_csv`: returns the rows the target file holds
after the call. -/
def create_csv {ρ : Type} (data : List ρ) (file : Option (List ρ)) : List ρ :=
  match file with
  | none => data
  | some existing => existing ++ data

/-! ### Lemmas about the pattern matchers -/

/-- A successful literal match peels the literal off the front. -/
lemma afterLit_eq : ∀ (lit s r : List Char), afterLit lit s = some r → s = lit ++ r := by
  intro lit
  induction lit with
  | nil =>
    intro s r h
    simp [afterLit] at h
    simp [h]
  | cons c cs ih =>
    intro s r h
    cases s with
    | nil => simp [afterLit] at h
    | cons d ds =>
      simp only [afterLit] at h
      split at h
      · next heq =>
        subst heq
        have := ih ds r h
        simp [this]
      · cases h

/-- A successful `litMatch` contains a successful literal match. -/
lemma litMatch_some {lit : List Char} {p : Char → Bool} {s : List Char}
    (h : litMatch lit p s = true) : ∃ r, afterLit lit s = some r := by
  unfold litMatch at h
  split at h
  · next r heq => exact ⟨r, heq⟩
  · cases h

/-- Two literal matches on the same string force one literal to be a
prefix of the other. -/
lemma afterLit_disjoint {l₁ l₂ s r₁ r₂ : List Char}
    (h₁ : afterLit l₁ s = some r₁) (h₂ : afterLit l₂ s = some r₂)
    (hnp : ¬ (l₁ <+: l₂ ∨ l₂ <+: l₁)) : False := by
  have e₁ := afterLit_eq _ _ _ h₁
  have e₂ := afterLit_eq _ _ _ h₂
  exact hnp (List.prefix_or_prefix_of_prefix ⟨r₁, e₁.symm⟩ ⟨r₂, e₂.symm⟩)

/-- A URL matching the twitch pattern cannot match the youtube one. -/
lemma twitch_not_youtube (url : String) (ht : matchTwitch url = true) :
    matchYoutube url = false := by
  unfold matchTwitch at ht
  split at ht
  · next h heq =>
    obtain ⟨r₁, e₁⟩ := litMatch_some ht
    unfold matchYoutube
    rw [heq]
    show (litMatch ytWatchLit isWordDash h || litMatch ytShortLit isWordDash h) = false
    cases hy1 : litMatch ytWatchLit isWordDash h with
    | true =>
      obtain ⟨r₂, e₂⟩ := litMatch_some hy1
      exact (afterLit_disjoint e₁ e₂ (by decide)).elim
    | false =>
      cases hy2 : litMatch ytShortLit isWordDash h with
      | true =>
        obtain ⟨r₂, e₂⟩ := litMatch_some hy2
        exact (afterLit_disjoint e₁ e₂ (by decide)).elim
      | false => simp
  · simp at ht

/-- A URL matching the tiktok pattern cannot match the youtube one. -/
lemma tiktok_not_youtube (url : String) (ht : matchTiktok url = true) :
    matchYoutube url = false := by
  unfold matchTiktok at ht
  split at ht
  · next h heq =>
    split at ht
    · next rest e₁ =>
      unfold matchYoutube
      rw [heq]
      show (litMatch ytWatchLit isWordDash h || litMatch ytShortLit isWordDash h) = false
      cases hy1 : litMatch ytWatchLit isWordDash h with
      | true =>
        obtain ⟨r₂, e₂⟩ := litMatch_some hy1
        exact (afterLit_disjoint e₁ e₂ (by decide)).elim
      | false =>
        cases hy2 : litMatch ytShortLit isWordDash h with
        | true =>
          obtain ⟨r₂, e₂⟩ := litMatch_some hy2
          exact (afterLit_disjoint e₁ e₂ (by decide)).elim
        | false => simp
    · simp at ht
  · simp at ht

/-- A URL matching the tiktok pattern cannot match the twitch one. -/
lemma tiktok_not_twitch (url : String) (ht : matchTiktok url = true) :
    matchTwitch url = false := by
  unfold matchTiktok at ht
  split at ht
  · next h heq =>
    split at ht
    · next rest e₁ =>
      unfold matchTwitch
      rw [heq]
      show litMatch twitchLit isWordDash h = false
      cases hw : litMatch twitchLit isWordDash h with
      | true =>
        obtain ⟨r₂, e₂⟩ := litMatch_some hw
        exact (afterLit_disjoint e₁ e₂ (by decide)).elim
      | false => rfl
    · simp at ht
  · simp at ht

/-- C1: `DetectPlatform` is a pure total classifier: URLs matching the
video-watch pattern map to `youtube`, URLs matching the channel-live
pattern map to `twitch`, URLs matching the short-clip pattern map to
`tiktok`, every other string maps to `INVALIDURL`, and the result is
always exactly one of these four tags. -/
theorem DetectPlatform_total_classification (url : String) :
    (matchYoutube url = true → DetectPlatform url = "youtube") ∧
    (matchTwitch url = true → DetectPlatform url = "twitch") ∧
    (matchTiktok url = true → DetectPlatform url = "tiktok") ∧
    (matchYoutube url = false → matchTwitch url = false → matchTiktok url = false →
      DetectPlatform url = "INVALIDURL") ∧
    (DetectPlatform url = "youtube" ∨ DetectPlatform url = "twitch" ∨
      DetectPlatform url = "tiktok" ∨ DetectPlatform url = "INVALIDURL") := by
  refine ⟨?_, ?_, ?_, ?_, ?_⟩
  · intro h
    simp [DetectPlatform, h]
  · intro h
    simp [DetectPlatform, h, twitch_not_youtube url h]
  · intro h
    simp [DetectPlatform, h, tiktok_not_youtube url h, tiktok_not_twitch url h]
  · intro h1 h2 h3
    simp [DetectPlatform, h1, h2, h3]
  · unfold DetectPlatform
    repeat' split
    all_goals simp

/-- Witness for C1 at the four example URLs of the spec. -/
theorem DetectPlatform_total_classification_witness :
    DetectPlatform "https://www.youtube.com/watch?v=abc123" = "youtube" ∧
    DetectPlatform "https://twitch.tv/somechannel" = "twitch" ∧
    DetectPlatform "https://www.tiktok.com/@user.name/video/1234567890" = "tiktok" ∧
    DetectPlatform "https://example.com/" = "INVALIDURL" :=
  ⟨(DetectPlatform_total_classification _).1 (by decide),
   (DetectPlatform_total_classification _).2.1 (by decide),
   (DetectPlatform_total_classification _).2.2.1 (by decide),
   (DetectPlatform_total_classification _).2.2.2.1 (by decide) (by decide) (by decide)⟩

/-- C8: flushing buffer `A` to a fresh CSV target and then buffer `B`
to the same target yields the rows of `A` followed by the rows of `B`,
with row count the sum of the two buffer sizes and each buffer's
internal order preserved. -/
theorem create_csv_append_semantics {ρ : Type} (A B : List ρ) :
    create_csv B (some (create_csv A none)) = A ++ B ∧
    (create_csv B (some (create_csv A none))).length = A.length + B.length := by
  constructor
  · rfl
  · simp [create_csv]

/-! ### Comment-loading scroll (`youtube.py`, `ScrollDownPageYouTube`, lines 44-70)

The loop keeps a stored page height and an attempt counter.  Each
round performs its scrolls, measures the height again, and either
increments the counter (height unchanged) or stores the new height and
resets the counter to zero.  The loop guard is `current_attempt < 3`.
The sequence of measured heights is the environment of the loop and is
modelled as a function from the round index to the measured value. -/

/-- One round of `ScrollDownPageYouTube` on the state
(stored height, attempt counter) when the new measurement is `v`. -/
def scrollStep (st : Nat × Nat) (v : Nat) : Nat × Nat :=
  if st.1 = v then (st.1, st.2 + 1) else (v, 0)

/-- State of `ScrollDownPageYouTube` before round `n`, starting from
the initial measured height `h0` with measurement sequence `hs`. -/
def scrollIter (h0 : Nat) (hs : Nat → Nat) : Nat → Nat × Nat
  | 0 => (h0, 0)
  | n + 1 => scrollStep (scrollIter h0 hs n) (hs n)

/-- The attempt counter grows by at most one per round. -/
lemma scrollIter_succ_le (h0 : Nat) (hs : Nat → Nat) (n : Nat) :
    (scrollIter h0 hs (n + 1)).2 ≤ (scrollIter h0 hs n).2 + 1 := by
  show (scrollStep (scrollIter h0 hs n) (hs n)).2 ≤ _
  unfold scrollStep
  split <;> simp

/-- Every counter value below a reached value is itself reached, no
later than the round that reached the larger value. -/
lemma scrollIter_reaches (h0 : Nat) (hs : Nat → Nat) :
    ∀ n k, k ≤ (scrollIter h0 hs n).2 → ∃ m, m ≤ n ∧ (scrollIter h0 hs m).2 = k := by
  intro n
  induction n with
  | zero =>
    intro k hk
    simp [scrollIter] at hk
    exact ⟨0, le_refl 0, by simp [scrollIter, hk]⟩
  | succ n ih =>
    intro k hk
    by_cases hc : k ≤ (scrollIter h0 hs n).2
    · obtain ⟨m, hmn, hm⟩ := ih k hc
      exact ⟨m, Nat.le_succ_of_le hmn, hm⟩
    · refine ⟨n + 1, le_refl _, le_antisymm ?_ hk⟩
      calc (scrollIter h0 hs (n + 1)).2 ≤ (scrollIter h0 hs n).2 + 1 :=
            scrollIter_succ_le h0 hs n
        _ ≤ k := Nat.succ_le_of_lt (Nat.lt_of_not_le hc)

/-- Once the measurements are constant, the stored height locks on. -/
lemma scrollIter_locked (h0 : Nat) (hs : Nat → Nat) (N : Nat) (c : Nat)
    (hconst : ∀ k, N ≤ k → hs k = c) :
    ∀ j, (scrollIter h0 hs (N + 1 + j)).1 = c := by
  intro j
  induction j with
  | zero =>
    show (scrollStep (scrollIter h0 hs N) (hs N)).1 = c
    rw [hconst N (le_refl N)]
    unfold scrollStep
    split
    · next he => exact he
    · rfl
  | succ j ih =>
    have hrw : N + 1 + (j + 1) = (N + 1 + j) + 1 := by omega
    rw [hrw]
    show (scrollStep (scrollIter h0 hs (N + 1 + j)) (hs (N + 1 + j))).1 = c
    rw [hconst (N + 1 + j) (by omega)]
    unfold scrollStep
    rw [if_pos ih]
    exact ih

/-- Once the stored height is locked on, the counter increments. -/
lemma scrollIter_counts (h0 : Nat) (hs : Nat → Nat) (N : Nat) (c : Nat)
    (hconst : ∀ k, N ≤ k → hs k = c) :
    ∀ j, (scrollIter h0 hs (N + 1 + j)).2 = (scrollIter h0 hs (N + 1)).2 + j := by
  intro j
  induction j with
  | zero => simp
  | succ j ih =>
    have hrw : N + 1 + (j + 1) = (N + 1 + j) + 1 := by omega
    rw [hrw]
    show (scrollStep (scrollIter h0 hs (N + 1 + j)) (hs (N + 1 + j))).2 = _
    rw [hconst (N + 1 + j) (by omega)]
    unfold scrollStep
    rw [scrollIter_locked h0 hs N c hconst j]
    simp [ih]
    omega

/-- C9: the scroll loop of `ScrollDownPageYouTube` terminates whenever
the measured page-height sequence is eventually constant: the attempt
counter increments on a round with unchanged height, any height change
resets it to zero, and the loop stops exactly when the counter first
reaches the bound of three consecutive unchanged rounds. -/
theorem ScrollDownPageYouTube_terminates (h0 : Nat) (hs : Nat → Nat) (N c : Nat)
    (hconst : ∀ k, N ≤ k → hs k = c) :
    (∀ n, ((scrollIter h0 hs n).1 = hs n →
        scrollIter h0 hs (n + 1) = ((scrollIter h0 hs n).1, (scrollIter h0 hs n).2 + 1)) ∧
      ((scrollIter h0 hs n).1 ≠ hs n → scrollIter h0 hs (n + 1) = (hs n, 0))) ∧
    ∃ n, (scrollIter h0 hs n).2 = 3 ∧ ∀ m < n, (scrollIter h0 hs m).2 < 3 := by
  constructor
  · intro n
    constructor
    · intro he
      show scrollStep (scrollIter h0 hs n) (hs n) = _
      unfold scrollStep
      rw [if_pos he]
    · intro he
      show scrollStep (scrollIter h0 hs n) (hs n) = _
      unfold scrollStep
      rw [if_neg he]
  · have hreach3 : 3 ≤ (scrollIter h0 hs (N + 1 + 3)).2 := by
      rw [scrollIter_counts h0 hs N c hconst 3]
      omega
    obtain ⟨m, _, hm⟩ := scrollIter_reaches h0 hs (N + 1 + 3) 3 hreach3
    have hP : ∃ n, (scrollIter h0 hs n).2 = 3 := ⟨m, hm⟩
    classical
    refine ⟨Nat.find hP, Nat.find_spec hP, ?_⟩
    intro k hk
    rcases Nat.lt_or_ge (scrollIter h0 hs k).2 3 with hlt | hge
    · exact hlt
    · obtain ⟨m', hm'k, hm'⟩ := scrollIter_reaches h0 hs k 3 hge
      exact absurd hm' (Nat.find_min hP (Nat.lt_of_le_of_lt hm'k hk))

/-- Witness for C9 on the constantly-7 measurement sequence. -/
theorem ScrollDownPageYouTube_terminates_witness :
    (∀ n, ((scrollIter 0 (fun _ => 7) n).1 = 7 →
        scrollIter 0 (fun _ => 7) (n + 1) =
          ((scrollIter 0 (fun _ => 7) n).1, (scrollIter 0 (fun _ => 7) n).2 + 1)) ∧
      ((scrollIter 0 (fun _ => 7) n).1 ≠ 7 →
        scrollIter 0 (fun _ => 7) (n + 1) = (7, 0))) ∧
    ∃ n, (scrollIter 0 (fun _ => 7) n).2 = 3 ∧
      ∀ m < n, (scrollIter 0 (fun _ => 7) m).2 < 3 :=
  ScrollDownPageYouTube_terminates 0 (fun _ => 7) 0 7 (fun _ _ => rfl)

/-! ### Python value and exception model for the extractors

The extractors manipulate Python strings, lists and ints and may raise
exceptions.  `PyAtom` models the elements stored in the comment lists,
`PyVal` the values flowing through the tiktok completeness check, and
`PyExc` the exceptions a modelled fragment can raise to its caller. -/

/-- Elements of the extracted comment lists: strings, or the literal
int `0` that `_extract_n_responses` appends for comments without a
reply counter. -/
inductive PyAtom where
  | str (s : String)
  | int (n : Int)
  deriving DecidableEq

/-- Values flowing through the tiktok completeness check. -/
inductive PyVal where
  | str (s : String)
  | list (l : List PyAtom)
  deriving DecidableEq

/-- Exceptions the modelled fragments can raise. -/
inductive PyExc where
  | keyError (name : String)
  deriving DecidableEq

/-- Reasons a DOM lookup can fail: `NoSuchElementException` or any
other exception.  Both handler arms of every extractor run the same
docstring lookup, so the distinction does not change the outcome. -/
inductive DomFailure where
  | noSuchElement
  | otherError
  deriving DecidableEq

/-- Python `frame.f_locals[name]`: raises `KeyError name` when `name`
is not a local variable of the frame.  The looked-up value is only
passed to `inspect.getdoc`, so the model returns the name itself. -/
def frameLocalsGet (locals : List String) (name : String) : Except PyExc String :=
  if name ∈ locals then Except.ok name else Except.error (PyExc.keyError name)

/-! ### Field extractors (`youtube.py` `_extract_name_channel` 157-179,
`twitch.py` `_extract_time_live` 203-216)

On success the extractor returns the element text.  On failure the
handler first evaluates
`inspect.getdoc(inspect.currentframe().f_back.f_locals[func_name])`
— a lookup of the extractor's own name among the *caller's local
variables* — before logging and returning the sentinel.  The DOM
outcome is the extractor's environment and arrives as an argument. -/

/-- Embedding of `_extract_name_channel` (`youtube.py`, lines 157-179). -/
def extract_name_channel (callerLocals : List String)
    (domFind : Except DomFailure String) : Except PyExc String :=
  match domFind with
  | Except.ok text => Except.ok text
  | Except.error _ =>
    match frameLocalsGet callerLocals "_extract_name_channel" with
    | Except.ok _ => Except.ok "None"
    | Except.error e => Except.error e

/-- Embedding of `_extract_time_live` (`twitch.py`, lines 203-216);
note that both of its handler arms return the empty list, not the
scalar sentinel. -/
def extract_time_live (callerLocals : List String)
    (domFind : Except DomFailure String) : Except PyExc PyVal :=
  match domFind with
  | Except.ok text => Except.ok (PyVal.str text)
  | Except.error _ =>
    match frameLocalsGet callerLocals "_extract_time_live" with
    | Except.ok _ => Except.ok (PyVal.list [])
    | Except.error e => Except.error e

/-- Local variables of `ExtractDataPageYouTube` when it calls
`_extract_name_channel` (`youtube.py`, line 107): only the `driver`
parameter is bound at that point. -/
def youtubeAssemblerLocals : List String := ["driver"]

/-- Local variables of `ExtractDataPageTwitch` when it calls
`_extract_time_live` (`twitch.py`, line 66). -/
def twitchLoopLocals : List String :=
  ["driver", "name_folder", "name_file", "db", "seen_comments", "html_content"]

/-- C2: evaluation of the failure path of the field extractors at their
actual call sites.  The docstring lookup inside the warning-logging
handler raises `KeyError` out of the extractor, because the extractor's
name is not among the caller's local variables; and even with the name
in scope, `_extract_time_live` would return the empty-list sentinel for
a scalar field. -/
theorem extractor_handler_raises :
    extract_name_channel youtubeAssemblerLocals (Except.error DomFailure.noSuchElement) =
      Except.error (PyExc.keyError "_extract_name_channel") ∧
    extract_time_live twitchLoopLocals (Except.error DomFailure.noSuchElement) =
      Except.error (PyExc.keyError "_extract_time_live") ∧
    extract_time_live ("_extract_time_live" :: twitchLoopLocals)
        (Except.error DomFailure.noSuchElement) = Except.ok (PyVal.list []) :=
  ⟨rfl, rfl, rfl⟩

/-! ### Truthiness and the tiktok completeness flag
(`tiktok.py`, `ExtractDataPageTiktok`, lines 109-115)

The code computes `all(a and b and c and d and e)`: the `and`-chain is
evaluated first (yielding the first falsy operand, or the last operand
when all are truthy) and `all` is applied to that single value. -/

/-- Python truthiness of a comment-list element. -/
def truthyAtom : PyAtom → Bool
  | PyAtom.str s => s != ""
  | PyAtom.int n => n != 0

/-- Python truthiness of a value in the completeness check. -/
def truthy : PyVal → Bool
  | PyVal.str s => s != ""
  | PyVal.list l => !l.isEmpty

/-- Python `and`: the first operand when it is falsy, else the second. -/
def pyAnd (a b : PyVal) : PyVal :=
  if truthy a then b else a

/-- Python `all(v)`: iterating a string yields its one-character
substrings, each of which is a nonempty string and hence truthy, so
`all` of any string (including the empty one) is `True`; `all` of a
list checks every element's truthiness. -/
def pyAll : PyVal → Bool
  | PyVal.str _ => true
  | PyVal.list l => l.all truthyAtom

/-- Fields of the assembled tiktok snapshot that feed the completeness
check: `data.get('url_post')` and the four comment sub-lists. -/
structure TikSnapshotFields where
  url_post : String
  username : List PyAtom
  n_like : List PyAtom
  n_response : List PyAtom
  date : List PyAtom
  deriving DecidableEq

/-- Embedding of the completeness flag of `ExtractDataPageTiktok`
(`tiktok.py`, lines 109-115): `all(url and username and n_like and
n_response and date)`. -/
def completenessFlag (d : TikSnapshotFields) : Bool :=
  pyAll (pyAnd (pyAnd (pyAnd (pyAnd (PyVal.str d.url_post)
    (PyVal.list d.username)) (PyVal.list d.n_like))
    (PyVal.list d.n_response)) (PyVal.list d.date))

/-- The flag the spec describes: a logical AND of non-absence over the
mandatory subset (post URL plus the four comment sub-lists). -/
def completenessFlagSpec (d : TikSnapshotFields) : Bool :=
  d.url_post != "" && !d.username.isEmpty && !d.n_like.isEmpty &&
    !d.n_response.isEmpty && !d.date.isEmpty

/-- C7: evaluation showing the completeness flag is not the logical AND
of field non-absence.  With every mandatory field absent the `and`-chain
yields the empty string and `all('')` is `True`, so the flag is `true`
while the spec's AND is `false`; the same happens when only the post
URL is absent. -/
theorem completenessFlag_diverges :
    completenessFlag ⟨"", [], [], [], []⟩ = true ∧
    completenessFlagSpec ⟨"", [], [], [], []⟩ = false ∧
    completenessFlag ⟨"", [PyAtom.str "u"], [PyAtom.str "1"],
      [PyAtom.int 0], [PyAtom.str "d"]⟩ = true ∧
    completenessFlagSpec ⟨"", [PyAtom.str "u"], [PyAtom.str "1"],
      [PyAtom.int 0], [PyAtom.str "d"]⟩ = false := by
  decide

/-! ### Record assembly (`tiktok.py` `extract_all_data` 155-211,
`youtube.py` `ExtractDataPageYouTube` 73-135)

`extract_all_data` collects the per-field futures into `results` (a
key may be missing when its future raised) and assembles the snapshot
with `results.get(key, default)`; the `date_scraping` value is the
hard-coded literal string.  `ExtractDataPageYouTube` assembles its
record from the extractor outputs with
`datetime.datetime.now().strftime(...)` as `date_scraping`; the
current time arrives as the `now` argument. -/

/-- Results dictionary of `extract_all_data`: `none` models a key
missing because its extraction future raised. -/
structure TikResults where
  url_post : Option String
  usernames : Option (List PyAtom)
  comments : Option (List PyAtom)
  likes : Option (List PyAtom)
  responses : Option (List PyAtom)
  dates : Option (List PyAtom)

/-- Snapshot assembled by `extract_all_data`. -/
structure TikRecord where
  date_scraping : String
  url_post : String
  comment_username : List PyAtom
  comment_n_like : List PyAtom
  comment_n_response : List PyAtom
  comment_date : List PyAtom

/-- Embedding of the assembly in `extract_all_data` (`tiktok.py`,
lines 192-202). -/
def extract_all_data (results : TikResults) : TikRecord :=
  { date_scraping := "2024-07-30 03:18:56"
    url_post := results.url_post.getD ""
    comment_username := results.usernames.getD []
    comment_n_like := results.likes.getD []
    comment_n_response := results.responses.getD []
    comment_date := results.dates.getD [] }

/-- Outputs of the youtube field extractors for one assembly. -/
structure YTExtracted where
  url_post : String
  channel_name : String
  count_subscribers : String
  id_channel : String
  title : String
  description : String
  views : String
  count_comment : String
  count_likes : String
  upload : String
  comment_username : List PyAtom
  comment_emoji : List PyAtom
  comment_n_like : List PyAtom
  comment_n_response : List PyAtom
  comment_date : List PyAtom

/-- Record assembled by `ExtractDataPageYouTube`. -/
structure YTRecord where
  date_scraping : String
  url_post : String
  channel_name : String
  count_subscribers : String
  id_channel : String
  title : String
  description : String
  views : String
  count_comment : String
  count_likes : String
  upload : String
  comment_username : List PyAtom
  comment_emoji : List PyAtom
  comment_n_like : List PyAtom
  comment_n_response : List PyAtom
  comment_date : List PyAtom

/-- Embedding of the assembly in `ExtractDataPageYouTube`
(`youtube.py`, lines 104-123). -/
def ExtractDataPageYouTube (now : String) (e : YTExtracted) : YTRecord :=
  { date_scraping := now
    url_post := e.url_post
    channel_name := e.channel_name
    count_subscribers := e.count_subscribers
    id_channel := e.id_channel
    title := e.title
    description := e.description
    views := e.views
    count_comment := e.count_comment
    count_likes := e.count_likes
    upload := e.upload
    comment_username := e.comment_username
    comment_emoji := e.comment_emoji
    comment_n_like := e.comment_n_like
    comment_n_response := e.comment_n_response
    comment_date := e.comment_date }

/-- C10: the tiktok record's `date_scraping` is the constant string
`2024-07-30 03:18:56` for every extraction outcome, while the youtube
record's `date_scraping` is the timestamp taken at assembly time. -/
theorem tiktok_date_scraping_constant (results : TikResults) (now : String)
    (e : YTExtracted) :
    (extract_all_data results).date_scraping = "2024-07-30 03:18:56" ∧
    (ExtractDataPageYouTube now e).date_scraping = now :=
  ⟨rfl, rfl⟩

/-! ### LiveChat scrape loop (`twitch.py`, `ExtractDataPageTwitch`, lines 30-128)

The loop is modelled as a step function over an explicit state driven
by a list of per-iteration environment inputs (ticks).  A tick records
what the DOM checks and extractors of that iteration would deliver,
plus whether a `KeyboardInterrupt` or another exception strikes the
iteration (modelled as striking at the top of the body).  Chat data
values are opaque to the loop — they are only stored and
equality-tested for deduplication — so they are a type parameter.
File writes (`_create_csv`) are modelled as always succeeding; the
model counts them instead of threading file contents.  The counter
fields of the state (`appended`, `thFlushes`, `offFlushes`,
`exitFlushes`, `cleanups`) are ghost observers of the events; the
Python-visible state is `db`, `seen`, the extraction variables and
the control status. -/

/-- Extraction variables of one tick (`time_live`, `views`,
`usernames`, `comments`, `now` in the source). -/
structure ChatVars (α : Type) where
  usernames : List α
  comments : List α
  timeLive : String
  views : String
  now : String
  deriving DecidableEq

/-- One row of the `db` dictionary: the five lists of
`{'date_scraping', 'time_live', 'views', 'username', 'comment'}` are
appended to in lockstep, so the dictionary is a list of rows. -/
structure ChatRow (α : Type) where
  date_scraping : String
  time_live : String
  views : String
  username : α
  comment : α
  deriving DecidableEq

/-- Environment input of one loop iteration. -/
structure ChatTick (α : Type) where
  interrupt : Bool
  raises : Bool
  offline : Bool
  commentsPresent : Bool
  usernames : List α
  comments : List α
  timeLive : String
  views : String
  now : String
  deriving DecidableEq

/-- Control status of the loop. -/
inductive LoopStatus where
  /-- The `while True` loop would run another iteration. -/
  | running
  /-- The bare `except:` of the offline branch caught an exception and
  broke out (in particular the `NameError` from the unbound extraction
  variables on a first-iteration offline detection). -/
  | offlineBreak
  /-- The `KeyboardInterrupt` handler appended, flushed and broke. -/
  | interruptStop
  /-- The generic `except Exception` handler appended, flushed and
  broke. -/
  | errorStop
  /-- A handler touched the unbound extraction variables and the
  resulting `NameError` propagated out of the function. -/
  | handlerRaised
  deriving DecidableEq

/-- State of the loop, with ghost counters for the observable events. -/
structure ChatLoopState (α : Type) where
  db : List (ChatRow α)
  seen : List α
  vars : Option (ChatVars α)
  status : LoopStatus
  appended : Nat
  thFlushes : Nat
  offFlushes : Nat
  exitFlushes : Nat
  cleanups : Nat
  deriving DecidableEq

/-- One step of the duplicate-filtering append loop
`for username, comment in zip(usernames, comments): ...` shared by the
main branch and all three handlers.  The third component counts the
rows actually appended. -/
def chatPush {α : Type} [DecidableEq α] (v : ChatVars α)
    (acc : List (ChatRow α) × List α × Nat) (p : α × α) :
    List (ChatRow α) × List α × Nat :=
  if p.2 ∈ acc.2.1 then acc
  else (acc.1 ++ [⟨v.now, v.timeLive, v.views, p.1, p.2⟩], p.2 :: acc.2.1, acc.2.2 + 1)

/-- The duplicate-filtering append of one tick: pairs usernames with
comments (`zip` truncates to the shorter list), appends the rows whose
comment has not been seen and registers those comments as seen. -/
def appendPending {α : Type} [DecidableEq α] (db : List (ChatRow α)) (seen : List α)
    (v : ChatVars α) : List (ChatRow α) × List α × Nat :=
  (v.usernames.zip v.comments).foldl (chatPush v) (db, seen, 0)

/-- Initial state of `ExtractDataPageTwitch`: empty dictionary, empty
`seen_comments`, extraction variables unbound. -/
def twitchInitState (α : Type) : ChatLoopState α :=
  ⟨[], [], none, LoopStatus.running, 0, 0, 0, 0, 0⟩

/-- One iteration of the `while True` body of `ExtractDataPageTwitch`
(`twitch.py`, lines 46-127) under the environment input `t`.

* Interrupt / other exception: the handler re-runs the append loop on
  the current extraction variables, flushes and breaks (lines
  105-127); when the variables were never bound the handler itself
  raises `NameError`, which propagates with no flush.
* Offline detected (lines 48-60): the inner `try` appends the pending
  pairs and flushes; any exception there — in particular the
  `NameError` when the variables are unbound — hits the bare `except:`
  and breaks.  After a successful flush execution falls through to the
  comment check of the same iteration; the dictionary is not reset.
* Comments present (lines 61-102): extraction binds the variables;
  with equal list lengths within the 140 guard the pending pairs are
  appended and the dictionary is flushed and reset when its length
  exceeds 1000; with an oversized list the cleanup script runs; with
  unequal lengths within the guard nothing happens.
* Comments absent: `driver.refresh()` (line 104), no state change. -/
def twitchStep {α : Type} [DecidableEq α] (t : ChatTick α) (s : ChatLoopState α) :
    ChatLoopState α :=
  if s.status ≠ LoopStatus.running then s
  else if t.interrupt then
    match s.vars with
    | none => { s with status := LoopStatus.handlerRaised }
    | some v =>
      let r := appendPending s.db s.seen v
      { s with db := r.1, seen := r.2.1, appended := s.appended + r.2.2,
               exitFlushes := s.exitFlushes + 1, status := LoopStatus.interruptStop }
  else if t.raises then
    match s.vars with
    | none => { s with status := LoopStatus.handlerRaised }
    | some v =>
      let r := appendPending s.db s.seen v
      { s with db := r.1, seen := r.2.1, appended := s.appended + r.2.2,
               exitFlushes := s.exitFlushes + 1, status := LoopStatus.errorStop }
  else
    let s1 :=
      if t.offline then
        match s.vars with
        | none => { s with status := LoopStatus.offlineBreak }
        | some v =>
          let r := appendPending s.db s.seen v
          { s with db := r.1, seen := r.2.1, appended := s.appended + r.2.2,
                   offFlushes := s.offFlushes + 1 }
      else s
    if s1.status ≠ LoopStatus.running then s1
    else if t.commentsPresent then
      let v : ChatVars α := ⟨t.usernames, t.comments, t.timeLive, t.views, t.now⟩
      let s2 := { s1 with vars := some v }
      if t.usernames.length = t.comments.length ∧ t.usernames.length ≤ 140 then
        let r := appendPending s2.db s2.seen v
        if r.1.length > 1000 then
          { s2 with db := [], seen := r.2.1, appended := s2.appended + r.2.2,
                    thFlushes := s2.thFlushes + 1 }
        else
          { s2 with db := r.1, seen := r.2.1, appended := s2.appended + r.2.2 }
      else if t.usernames.length > 140 ∨ t.comments.length > 140 then
        { s2 with cleanups := s2.cleanups + 1 }
      else s2
    else s1

/-- The whole loop of `ExtractDataPageTwitch` over a finite trace of
environment inputs, one `twitchStep` per iteration. -/
def ExtractDataPageTwitch {α : Type} [DecidableEq α] :
    List (ChatTick α) → ChatLoopState α → ChatLoopState α
  | [], s => s
  | t :: rest, s => ExtractDataPageTwitch rest (twitchStep t s)

/-! ### Concrete environment inputs used in the evaluations -/

/-- A tick on which the offline marker is detected and the chat
container is absent. -/
def tickOffline : ChatTick Nat :=
  { interrupt := false, raises := false, offline := true, commentsPresent := false,
    usernames := [], comments := [], timeLive := "", views := "", now := "" }

/-- A quiet tick on which the chat container is present and extraction
yields the given usernames and comments. -/
def tickComments (u c : List Nat) : ChatTick Nat :=
  { interrupt := false, raises := false, offline := false, commentsPresent := true,
    usernames := u, comments := c, timeLive := "t", views := "v", now := "n" }

/-- A tick on which a `KeyboardInterrupt` strikes the loop body. -/
def tickInterrupt : ChatTick Nat :=
  { interrupt := true, raises := false, offline := false, commentsPresent := false,
    usernames := [], comments := [], timeLive := "", views := "", now := "" }

/-- A tick with unequal list lengths inside the 140 guard. -/
def tickUneven : ChatTick Nat :=
  tickComments [0] [1, 2]

/-- Twelve hundred distinct comment values. -/
def bigL : List Nat := List.range 1200

/-- A tick whose equal-length lists exceed the 140 guard, so the tick
only binds the extraction variables and triggers the cleanup script. -/
def tickMalformedBig : ChatTick Nat :=
  { interrupt := false, raises := false, offline := false, commentsPresent := true,
    usernames := bigL, comments := bigL, timeLive := "t", views := "v", now := "n" }

/-! ### Lemmas about the append loop -/

/-- Zipping a list with itself and projecting the second components
gives the list back. -/
lemma zip_self_map_snd {α : Type} (l : List α) : (l.zip l).map Prod.snd = l := by
  induction l with
  | nil => rfl
  | cons a l ih => simp [List.zip_cons_cons, ih]

/-- When the zipped comments are pairwise distinct and none was seen
before, the append loop appends one row per pair. -/
lemma chatPush_fold_fresh {α : Type} [DecidableEq α] (v : ChatVars α) :
    ∀ (ps : List (α × α)) (db : List (ChatRow α)) (seen : List α) (k : Nat),
      (ps.map Prod.snd).Nodup → (∀ c ∈ ps.map Prod.snd, c ∉ seen) →
      (ps.foldl (chatPush v) (db, seen, k)).1.length = db.length + ps.length := by
  intro ps
  induction ps with
  | nil => intro db seen k _ _; simp
  | cons p ps ih =>
    intro db seen k hnd hfresh
    simp only [List.map_cons, List.nodup_cons] at hnd
    have hp2 : p.2 ∉ seen := hfresh p.2 (by simp)
    simp only [List.foldl_cons]
    have hstep : chatPush v (db, seen, k) p =
        (db ++ [⟨v.now, v.timeLive, v.views, p.1, p.2⟩], p.2 :: seen, k + 1) := by
      simp [chatPush, hp2]
    rw [hstep]
    have hfresh' : ∀ c ∈ ps.map Prod.snd, c ∉ p.2 :: seen := by
      intro c hc
      simp only [List.mem_cons, not_or]
      exact ⟨fun he => hnd.1 (he ▸ hc), hfresh c (by simp [hc])⟩
    rw [ih _ _ _ hnd.2 hfresh']
    simp
    omega

/-- The append loop grows the dictionary by exactly the number of rows
it counts as appended. -/
lemma chatPush_fold_length {α : Type} [DecidableEq α] (v : ChatVars α) :
    ∀ (ps : List (α × α)) (db : List (ChatRow α)) (seen : List α) (k : Nat),
      (ps.foldl (chatPush v) (db, seen, k)).1.length + k =
        db.length + (ps.foldl (chatPush v) (db, seen, k)).2.2 := by
  intro ps
  induction ps with
  | nil => intro db seen k; simp
  | cons p ps ih =>
    intro db seen k
    simp only [List.foldl_cons]
    by_cases hp : p.2 ∈ seen
    · have hstep : chatPush v (db, seen, k) p = (db, seen, k) := by
        simp [chatPush, hp]
      rw [hstep]
      exact ih db seen k
    · have hstep : chatPush v (db, seen, k) p =
          (db ++ [⟨v.now, v.timeLive, v.views, p.1, p.2⟩], p.2 :: seen, k + 1) := by
        simp [chatPush, hp]
      rw [hstep]
      have := ih (db ++ [⟨v.now, v.timeLive, v.views, p.1, p.2⟩]) (p.2 :: seen) (k + 1)
      simp only [List.length_append, List.length_singleton] at this
      omega

/-- Length accounting for `appendPending`. -/
lemma appendPending_length {α : Type} [DecidableEq α] (db : List (ChatRow α)) (seen : List α)
    (v : ChatVars α) :
    (appendPending db seen v).1.length = db.length + (appendPending db seen v).2.2 := by
  have := chatPush_fold_length v (v.usernames.zip v.comments) db seen 0
  unfold appendPending
  omega

/-! ### Per-branch descriptions of one loop iteration -/

/-- After a break or a propagated exception nothing happens. -/
lemma twitchStep_stopped {α : Type} [DecidableEq α] (t : ChatTick α) (s : ChatLoopState α)
    (hst : s.status ≠ LoopStatus.running) : twitchStep t s = s := by
  unfold twitchStep
  rw [if_pos hst]

/-- Interrupt with unbound extraction variables: the handler raises
`NameError`, nothing is flushed. -/
lemma twitchStep_interrupt_none {α : Type} [DecidableEq α] (t : ChatTick α)
    (s : ChatLoopState α) (hst : s.status = LoopStatus.running) (hi : t.interrupt = true)
    (hv : s.vars = none) :
    twitchStep t s = { s with status := LoopStatus.handlerRaised } := by
  unfold twitchStep
  rw [hi, hv]
  simp [hst]

/-- Interrupt with bound extraction variables: pending append, one
flush, break. -/
lemma twitchStep_interrupt_some {α : Type} [DecidableEq α] (t : ChatTick α)
    (s : ChatLoopState α) (v : ChatVars α) (hst : s.status = LoopStatus.running)
    (hi : t.interrupt = true) (hv : s.vars = some v) :
    twitchStep t s =
      { s with db := (appendPending s.db s.seen v).1,
               seen := (appendPending s.db s.seen v).2.1,
               appended := s.appended + (appendPending s.db s.seen v).2.2,
               exitFlushes := s.exitFlushes + 1, status := LoopStatus.interruptStop } := by
  unfold twitchStep
  rw [hi, hv]
  simp [hst]

/-- Other exception with unbound extraction variables: the handler
raises `NameError`, nothing is flushed. -/
lemma twitchStep_raises_none {α : Type} [DecidableEq α] (t : ChatTick α)
    (s : ChatLoopState α) (hst : s.status = LoopStatus.running) (hi : t.interrupt = false)
    (hr : t.raises = true) (hv : s.vars = none) :
    twitchStep t s = { s with status := LoopStatus.handlerRaised } := by
  unfold twitchStep
  rw [hi, hr, hv]
  simp [hst]

/-- Other exception with bound variables: pending append, one flush,
break. -/
lemma twitchStep_raises_some {α : Type} [DecidableEq α] (t : ChatTick α)
    (s : ChatLoopState α) (v : ChatVars α) (hst : s.status = LoopStatus.running)
    (hi : t.interrupt = false) (hr : t.raises = true) (hv : s.vars = some v) :
    twitchStep t s =
      { s with db := (appendPending s.db s.seen v).1,
               seen := (appendPending s.db s.seen v).2.1,
               appended := s.appended + (appendPending s.db s.seen v).2.2,
               exitFlushes := s.exitFlushes + 1, status := LoopStatus.errorStop } := by
  unfold twitchStep
  rw [hi, hr, hv]
  simp [hst]

/-- Online tick with no chat container: only `driver.refresh()`. -/
lemma twitchStep_quiet {α : Type} [DecidableEq α] (t : ChatTick α) (s : ChatLoopState α)
    (hst : s.status = LoopStatus.running) (hi : t.interrupt = false) (hr : t.raises = false)
    (ho : t.offline = false) (hc : t.commentsPresent = false) :
    twitchStep t s = s := by
  unfold twitchStep
  rw [hi, hr, ho, hc]
  simp [hst]

/-- Well-formed extraction tick: the pending pairs are appended and
the dictionary is flushed and reset exactly when its length exceeds
1000. -/
lemma twitchStep_wellformed {α : Type} [DecidableEq α] (t : ChatTick α) (s : ChatLoopState α)
    (hst : s.status = LoopStatus.running) (hi : t.interrupt = false) (hr : t.raises = false)
    (ho : t.offline = false) (hc : t.commentsPresent = true)
    (hcond : t.usernames.length = t.comments.length ∧ t.usernames.length ≤ 140) :
    twitchStep t s =
      (if (appendPending s.db s.seen
            ⟨t.usernames, t.comments, t.timeLive, t.views, t.now⟩).1.length > 1000 then
        { s with db := [],
                 seen := (appendPending s.db s.seen
                   ⟨t.usernames, t.comments, t.timeLive, t.views, t.now⟩).2.1,
                 vars := some ⟨t.usernames, t.comments, t.timeLive, t.views, t.now⟩,
                 appended := s.appended + (appendPending s.db s.seen
                   ⟨t.usernames, t.comments, t.timeLive, t.views, t.now⟩).2.2,
                 thFlushes := s.thFlushes + 1 }
      else
        { s with db := (appendPending s.db s.seen
                   ⟨t.usernames, t.comments, t.timeLive, t.views, t.now⟩).1,
                 seen := (appendPending s.db s.seen
                   ⟨t.usernames, t.comments, t.timeLive, t.views, t.now⟩).2.1,
                 vars := some ⟨t.usernames, t.comments, t.timeLive, t.views, t.now⟩,
                 appended := s.appended + (appendPending s.db s.seen
                   ⟨t.usernames, t.comments, t.timeLive, t.views, t.now⟩).2.2 }) := by
  unfold twitchStep
  rw [hi, hr, ho, hc]
  obtain ⟨heq, hle⟩ := hcond
  have hltc : ¬ 140 < t.comments.length := by omega
  have hltu : ¬ 140 < t.usernames.length := by omega
  simp [hst, heq, hle, hltc, hltu]

/-- Malformed extraction tick: the variables are rebound, nothing is
persisted, the cleanup script runs exactly when a list exceeds the 140
guard. -/
lemma twitchStep_malformed_fields {α : Type} [DecidableEq α] (t : ChatTick α)
    (s : ChatLoopState α)
    (hst : s.status = LoopStatus.running) (hi : t.interrupt = false) (hr : t.raises = false)
    (ho : t.offline = false) (hc : t.commentsPresent = true)
    (hm : ¬ (t.usernames.length = t.comments.length ∧ t.usernames.length ≤ 140)) :
    (twitchStep t s).db = s.db ∧ (twitchStep t s).seen = s.seen ∧
    (twitchStep t s).vars = some ⟨t.usernames, t.comments, t.timeLive, t.views, t.now⟩ ∧
    (twitchStep t s).status = LoopStatus.running ∧
    (twitchStep t s).appended = s.appended ∧
    (twitchStep t s).thFlushes = s.thFlushes ∧
    (twitchStep t s).offFlushes = s.offFlushes ∧
    (twitchStep t s).exitFlushes = s.exitFlushes ∧
    (twitchStep t s).cleanups = (if t.usernames.length > 140 ∨ t.comments.length > 140
      then s.cleanups + 1 else s.cleanups) := by
  unfold twitchStep
  rw [hi, hr, ho, hc, hst]
  by_cases h14 : t.usernames.length > 140 ∨ t.comments.length > 140
  · simp [hm, h14, hst]
  · simp [hm, h14, hst]

/-- Offline tick with bound variables and no chat container: pending
append and a flush without reset, after which the loop keeps running. -/
lemma twitchStep_offline_fields {α : Type} [DecidableEq α] (t : ChatTick α)
    (s : ChatLoopState α) (v : ChatVars α)
    (hst : s.status = LoopStatus.running) (hi : t.interrupt = false) (hr : t.raises = false)
    (ho : t.offline = true) (hc : t.commentsPresent = false) (hv : s.vars = some v) :
    (twitchStep t s).db = (appendPending s.db s.seen v).1 ∧
    (twitchStep t s).status = LoopStatus.running ∧
    (twitchStep t s).offFlushes = s.offFlushes + 1 ∧
    (twitchStep t s).thFlushes = s.thFlushes := by
  unfold twitchStep
  rw [hi, hr, ho, hc, hst, hv]
  simp [hst]

/-! ### Invariant of the threshold flush -/

/-- One non-offline iteration preserves the buffer bound for running
states and the accounting inequality between threshold flushes, buffer
length and total appends. -/
lemma twitchStep_bound_inv {α : Type} [DecidableEq α] (t : ChatTick α) (s : ChatLoopState α)
    (ho : t.offline = false)
    (h1 : s.status = LoopStatus.running → s.db.length ≤ 1000)
    (h2 : 1001 * s.thFlushes + s.db.length ≤ s.appended) :
    ((twitchStep t s).status = LoopStatus.running → (twitchStep t s).db.length ≤ 1000) ∧
    1001 * (twitchStep t s).thFlushes + (twitchStep t s).db.length ≤ (twitchStep t s).appended := by
  by_cases hst : s.status = LoopStatus.running
  · cases hti : t.interrupt with
    | true =>
      cases hv : s.vars with
      | none =>
        rw [twitchStep_interrupt_none t s hst hti hv]
        exact ⟨fun h => absurd h (by simp), by simpa using h2⟩
      | some v =>
        rw [twitchStep_interrupt_some t s v hst hti hv]
        have hl := appendPending_length s.db s.seen v
        exact ⟨fun h => absurd h (by simp), by simp; omega⟩
    | false =>
      cases htr : t.raises with
      | true =>
        cases hv : s.vars with
        | none =>
          rw [twitchStep_raises_none t s hst hti htr hv]
          exact ⟨fun h => absurd h (by simp), by simpa using h2⟩
        | some v =>
          rw [twitchStep_raises_some t s v hst hti htr hv]
          have hl := appendPending_length s.db s.seen v
          exact ⟨fun h => absurd h (by simp), by simp; omega⟩
      | false =>
        cases htc : t.commentsPresent with
        | false =>
          rw [twitchStep_quiet t s hst hti htr ho htc]
          exact ⟨h1, h2⟩
        | true =>
          by_cases hcond : t.usernames.length = t.comments.length ∧ t.usernames.length ≤ 140
          · rw [twitchStep_wellformed t s hst hti htr ho htc hcond]
            have hl := appendPending_length s.db s.seen
              (⟨t.usernames, t.comments, t.timeLive, t.views, t.now⟩ : ChatVars α)
            by_cases hfl : (appendPending s.db s.seen
                (⟨t.usernames, t.comments, t.timeLive, t.views, t.now⟩ : ChatVars α)).1.length > 1000
            · rw [if_pos hfl]
              constructor
              · intro _
                simp
              · simp
                omega
            · rw [if_neg hfl]
              constructor
              · intro _
                simp
                omega
              · simp
                omega
          · obtain ⟨hdbE, -, -, hstE, happE, hthE, -, -, -⟩ :=
              twitchStep_malformed_fields t s hst hti htr ho htc hcond
            rw [hdbE, hstE, happE, hthE]
            exact ⟨fun _ => h1 hst, h2⟩
  · rw [twitchStep_stopped t s hst]
    exact ⟨h1, h2⟩

/-- The invariant carried over a whole non-offline trace. -/
lemma twitchRun_bound_inv {α : Type} [DecidableEq α] :
    ∀ (ticks : List (ChatTick α)) (s : ChatLoopState α),
      (∀ t ∈ ticks, t.offline = false) →
      (s.status = LoopStatus.running → s.db.length ≤ 1000) →
      1001 * s.thFlushes + s.db.length ≤ s.appended →
      ((ExtractDataPageTwitch ticks s).status = LoopStatus.running →
        (ExtractDataPageTwitch ticks s).db.length ≤ 1000) ∧
      1001 * (ExtractDataPageTwitch ticks s).thFlushes +
        (ExtractDataPageTwitch ticks s).db.length ≤ (ExtractDataPageTwitch ticks s).appended := by
  intro ticks
  induction ticks with
  | nil =>
    intro s _ h1 h2
    simp only [ExtractDataPageTwitch]
    exact ⟨h1, h2⟩
  | cons t rest ih =>
    intro s hoff h1 h2
    simp only [ExtractDataPageTwitch]
    obtain ⟨g1, g2⟩ := twitchStep_bound_inv t s (hoff t (by simp)) h1 h2
    exact ih (twitchStep t s) (fun u hu => hoff u (by simp [hu])) g1 g2

/-! ### ShortForm scrape loop (`tiktok.py`, `ExtractDataPageTiktok`, lines 32-152)

Save-counting skeleton of the loop.  One event stands for one
iteration of the `while True` body: either an exception strikes the
body, a `KeyboardInterrupt` strikes it, or a snapshot is assembled
with the given completeness flag and, when the flag holds, the given
user input at the continue/stop prompt.  The result is `none` when the
trace ends with the loop still running, otherwise the total number of
`_save_to_json` calls made during the whole call together with the
exit kind:

* an exception in the body is caught at line 141 and returns `data`;
  the `finally` of the outer `try` (lines 146-152) then saves once;
* a `KeyboardInterrupt` is not caught (it is not an `Exception`), but
  the outer `finally` still saves once while it propagates;
* on a complete snapshot with input `exit` the loop saves at line 131
  and breaks, and the outer `finally` saves a second time;
* any other input, and any incomplete snapshot, continues the loop. -/

/-- Environment event of one tiktok loop iteration. -/
inductive TikTickEvent where
  | raises
  | interrupt
  | snap (complete : Bool) (input : String)

/-- How a tiktok scrape run ended. -/
inductive TikExitKind where
  | errorReturn
  | interruptRaised
  | userExit
  deriving DecidableEq

/-- Save-counting embedding of `ExtractDataPageTiktok`. -/
def ExtractDataPageTiktok : List TikTickEvent → Option (Nat × TikExitKind)
  | [] => none
  | TikTickEvent.raises :: _ => some (1, TikExitKind.errorReturn)
  | TikTickEvent.interrupt :: _ => some (1, TikExitKind.interruptRaised)
  | TikTickEvent.snap complete input :: rest =>
    if complete then
      if input = "exit" then some (2, TikExitKind.userExit)
      else ExtractDataPageTiktok rest
    else ExtractDataPageTiktok rest

/-- C3: the remaining buffer is not flushed exactly once on every exit
path.  The ShortForm loop's user-exit path saves the assembled data
twice (the save at line 131 of `tiktok.py` plus the `finally` save at
line 152), while its error path saves exactly once; and the LiveChat
loop's first-tick interrupt path raises `NameError` out of the handler
and terminates with zero flushes. -/
theorem flush_final_exit_paths_diverge :
    ExtractDataPageTiktok [TikTickEvent.snap true "exit"] = some (2, TikExitKind.userExit) ∧
    ExtractDataPageTiktok [TikTickEvent.raises] = some (1, TikExitKind.errorReturn) ∧
    (ExtractDataPageTwitch [tickInterrupt] (twitchInitState Nat)).status =
      LoopStatus.handlerRaised ∧
    (ExtractDataPageTwitch [tickInterrupt] (twitchInitState Nat)).exitFlushes = 0 ∧
    (ExtractDataPageTwitch [tickInterrupt] (twitchInitState Nat)).offFlushes = 0 ∧
    (ExtractDataPageTwitch [tickInterrupt] (twitchInitState Nat)).thFlushes = 0 :=
  ⟨rfl, rfl, rfl, rfl, rfl, rfl⟩

/-- C4: offline detection is not terminal.  After a successful
extraction tick, two offline ticks each flush the (un-reset) buffer
and the loop keeps running — a later extraction tick still appends —
while a first-tick offline detection breaks out with zero flushes
because the bare `except:` catches the `NameError` before any flush. -/
theorem offline_tick_not_terminal :
    (ExtractDataPageTwitch [tickComments [0] [0], tickOffline, tickOffline, tickComments [1] [1]]
      (twitchInitState Nat)).status = LoopStatus.running ∧
    (ExtractDataPageTwitch [tickComments [0] [0], tickOffline, tickOffline, tickComments [1] [1]]
      (twitchInitState Nat)).offFlushes = 2 ∧
    (ExtractDataPageTwitch [tickComments [0] [0], tickOffline, tickOffline, tickComments [1] [1]]
      (twitchInitState Nat)).db.length = 2 ∧
    (ExtractDataPageTwitch [tickOffline] (twitchInitState Nat)).status =
      LoopStatus.offlineBreak ∧
    (ExtractDataPageTwitch [tickOffline] (twitchInitState Nat)).offFlushes = 0 := by
  decide

/-- C6 counterexample: on a tick whose username list (one entry) and
comment list (two entries) have unequal lengths within the 140 guard,
the loop persists nothing but also does not issue the corrective
DOM-cleanup script — it simply continues. -/
theorem malformed_tick_no_cleanup :
    (ExtractDataPageTwitch [tickUneven] (twitchInitState Nat)).cleanups = 0 ∧
    (ExtractDataPageTwitch [tickUneven] (twitchInitState Nat)).db = [] ∧
    (ExtractDataPageTwitch [tickUneven] (twitchInitState Nat)).status =
      LoopStatus.running := by
  decide

/-- C6 (amended): on every tick whose extracted lists have unequal
lengths or exceed the 140-entry size guard, the loop persists nothing
from that tick and continues looping, but the corrective DOM-cleanup
script is issued only when one of the lists exceeds 140 entries; an
unequal-length tick within the guard is skipped with no corrective
action. -/
theorem malformed_tick_skips_persistence {α : Type} [DecidableEq α] (t : ChatTick α)
    (s : ChatLoopState α)
    (hst : s.status = LoopStatus.running) (hi : t.interrupt = false) (hr : t.raises = false)
    (ho : t.offline = false) (hc : t.commentsPresent = true)
    (hm : t.usernames.length ≠ t.comments.length ∨
      140 < t.usernames.length ∨ 140 < t.comments.length) :
    (twitchStep t s).db = s.db ∧ (twitchStep t s).seen = s.seen ∧
    (twitchStep t s).appended = s.appended ∧
    (twitchStep t s).thFlushes = s.thFlushes ∧
    (twitchStep t s).offFlushes = s.offFlushes ∧
    (twitchStep t s).exitFlushes = s.exitFlushes ∧
    (twitchStep t s).status = LoopStatus.running ∧
    (twitchStep t s).cleanups = (if 140 < t.usernames.length ∨ 140 < t.comments.length
      then s.cleanups + 1 else s.cleanups) := by
  have hm' : ¬ (t.usernames.length = t.comments.length ∧ t.usernames.length ≤ 140) := by
    rintro ⟨heq, hle⟩
    rcases hm with h | h | h
    · exact h heq
    · omega
    · rw [heq] at hle
      omega
  obtain ⟨hdb, hseen, -, hstE, happ, hth, hoffE, hex, hcl⟩ :=
    twitchStep_malformed_fields t s hst hi hr ho hc hm'
  exact ⟨hdb, hseen, happ, hth, hoffE, hex, hstE, hcl⟩

/-- Witness for C6 at the unequal-length tick `[0]` versus `[1, 2]`
from the running initial state. -/
theorem malformed_tick_skips_persistence_witness :
    (twitchStep tickUneven (twitchInitState Nat)).db = (twitchInitState Nat).db ∧
    (twitchStep tickUneven (twitchInitState Nat)).seen = (twitchInitState Nat).seen ∧
    (twitchStep tickUneven (twitchInitState Nat)).appended = (twitchInitState Nat).appended ∧
    (twitchStep tickUneven (twitchInitState Nat)).thFlushes = (twitchInitState Nat).thFlushes ∧
    (twitchStep tickUneven (twitchInitState Nat)).offFlushes = (twitchInitState Nat).offFlushes ∧
    (twitchStep tickUneven (twitchInitState Nat)).exitFlushes =
      (twitchInitState Nat).exitFlushes ∧
    (twitchStep tickUneven (twitchInitState Nat)).status = LoopStatus.running ∧
    (twitchStep tickUneven (twitchInitState Nat)).cleanups =
      (if 140 < tickUneven.usernames.length ∨ 140 < tickUneven.comments.length
        then (twitchInitState Nat).cleanups + 1 else (twitchInitState Nat).cleanups) :=
  malformed_tick_skips_persistence tickUneven (twitchInitState Nat)
    rfl rfl rfl rfl rfl (by decide)

/-- C5 counterexample: a reachable trace ends a poll tick with 1200
rows in the buffer and the loop still running.  A malformed tick binds
the extraction variables to two 1200-entry lists (no persistence, only
the cleanup script), and the following offline tick re-runs the append
loop on those stale variables and flushes without resetting, leaving
the buffer far above the 1000 threshold while the loop continues. -/
theorem buffer_threshold_invariant_counterexample :
    (ExtractDataPageTwitch [tickMalformedBig, tickOffline] (twitchInitState Nat)).status =
      LoopStatus.running ∧
    1000 <
      (ExtractDataPageTwitch [tickMalformedBig, tickOffline] (twitchInitState Nat)).db.length := by
  have hu : tickMalformedBig.usernames = bigL := by
    simp only [tickMalformedBig]
  have hlen : tickMalformedBig.usernames.length = 1200 := by
    rw [hu]
    exact List.length_range 1200
  have hm : ¬ (tickMalformedBig.usernames.length = tickMalformedBig.comments.length ∧
      tickMalformedBig.usernames.length ≤ 140) := by
    rintro ⟨-, hle⟩
    rw [hlen] at hle
    omega
  obtain ⟨hdb1, hseen1, hvars1, hstat1, -, -, -, -, -⟩ :=
    twitchStep_malformed_fields tickMalformedBig (twitchInitState Nat) rfl rfl rfl rfl rfl hm
  have hdb1' : (twitchStep tickMalformedBig (twitchInitState Nat)).db = [] := hdb1
  have hseen1' : (twitchStep tickMalformedBig (twitchInitState Nat)).seen = [] := hseen1
  have hvars1' : (twitchStep tickMalformedBig (twitchInitState Nat)).vars =
      some ⟨bigL, bigL, "t", "v", "n"⟩ := by
    rw [hvars1]
    simp only [tickMalformedBig]
  obtain ⟨hdb2, hstat2, -, -⟩ := twitchStep_offline_fields tickOffline
    (twitchStep tickMalformedBig (twitchInitState Nat)) ⟨bigL, bigL, "t", "v", "n"⟩
    hstat1 rfl rfl rfl rfl hvars1'
  rw [hdb1', hseen1'] at hdb2
  have hrun : ExtractDataPageTwitch [tickMalformedBig, tickOffline] (twitchInitState Nat) =
      twitchStep tickOffline (twitchStep tickMalformedBig (twitchInitState Nat)) := by
    simp only [ExtractDataPageTwitch]
  have hlen2 : (appendPending ([] : List (ChatRow Nat)) []
      (⟨bigL, bigL, "t", "v", "n"⟩ : ChatVars Nat)).1.length = 1200 := by
    unfold appendPending
    rw [chatPush_fold_fresh]
    · have hzl : (bigL.zip bigL).length = 1200 := by
        rw [List.length_zip]
        have hbl : bigL.length = 1200 := List.length_range 1200
        rw [hbl]
        exact Nat.min_self 1200
      rw [hzl]
      simp
    · rw [zip_self_map_snd]
      simp only [bigL]
      exact List.nodup_range 1200
    · intro c hc
      simp
  constructor
  · rw [hrun]
    exact hstat2
  · rw [hrun, hdb2, hlen2]
    omega

/-- C5 (amended): over every trace in which the offline marker is
never detected, the buffer length is at most the threshold of 1000
whenever the loop is still running — a tick whose appends push the
length past 1000 writes the buffer to the CSV sink and resets it
before the loop continues — and the number of threshold-triggered
flushes never exceeds `ceil(appended / 1000)`.  On offline ticks the
bound can fail, because the offline-path append and flush do not reset
the buffer. -/
theorem buffer_threshold_invariant_no_offline {α : Type} [DecidableEq α]
    (ticks : List (ChatTick α)) (hoff : ∀ t ∈ ticks, t.offline = false) :
    ((ExtractDataPageTwitch ticks (twitchInitState α)).status = LoopStatus.running →
      (ExtractDataPageTwitch ticks (twitchInitState α)).db.length ≤ 1000) ∧
    (ExtractDataPageTwitch ticks (twitchInitState α)).thFlushes ≤
      ((ExtractDataPageTwitch ticks (twitchInitState α)).appended + 999) / 1000 := by
  obtain ⟨g1, g2⟩ := twitchRun_bound_inv ticks (twitchInitState α) hoff
    (fun _ => by simp [twitchInitState]) (by simp [twitchInitState])
  refine ⟨g1, ?_⟩
  rw [Nat.le_div_iff_mul_le (by omega)]
  omega

/-- Witness for C5 on the one-tick trace that appends a single row. -/
theorem buffer_threshold_invariant_no_offline_witness :
    ((ExtractDataPageTwitch [tickComments [0] [0]] (twitchInitState Nat)).status =
        LoopStatus.running →
      (ExtractDataPageTwitch [tickComments [0] [0]] (twitchInitState Nat)).db.length ≤ 1000) ∧
    (ExtractDataPageTwitch [tickComments [0] [0]] (twitchInitState Nat)).thFlushes ≤
      ((ExtractDataPageTwitch [tickComments [0] [0]] (twitchInitState Nat)).appended + 999) /
        1000 :=
  buffer_threshold_invariant_no_offline [tickComments [0] [0]] (by decide)
